import Mathlib

/-!
Shallow embedding of the fact-extraction and reasoning pipeline of the
repository (app/core/models.py, app/utils/reasoning.py,
app/utils/self_check.py, app/utils/wikipedia_client.py).

Python floats are modelled as exact rationals (ℚ); Python exceptions as
`Except String` carrying the string representation of the exception; the
Wikipedia HTTP client as a record of behaviour functions, so that theorems
quantify over every possible network behaviour.
-/

deriving instance DecidableEq for Except

/-! ## Character and string utilities (model of Python `re` matching
for the two concrete patterns used in app/utils/reasoning.py). -/

/-- Lower-case a character: ASCII A-Z and Cyrillic А-Я (U+0410..U+042F)
map down by 32, Ё maps to ё; everything else is unchanged.  Models the
case folding relevant to `re.IGNORECASE` for the characters the patterns
use. -/
def lowerChar (c : Char) : Char :=
  if 'A' ≤ c ∧ c ≤ 'Z' then Char.ofNat (c.toNat + 32)
  else if 'А' ≤ c ∧ c ≤ 'Я' then Char.ofNat (c.toNat + 32)
  else if c = 'Ё' then 'ё'
  else c

/-- Upper-case a character (inverse direction of `lowerChar`). -/
def upperChar (c : Char) : Char :=
  if 'a' ≤ c ∧ c ≤ 'z' then Char.ofNat (c.toNat - 32)
  else if 'а' ≤ c ∧ c ≤ 'я' then Char.ofNat (c.toNat - 32)
  else if c = 'ё' then 'Ё'
  else c

/-- Model of Python `str.capitalize()`: first character upper-cased,
the rest lower-cased. -/
def pyCapitalize (s : String) : String :=
  match s.data with
  | [] => ""
  | c :: rest => String.mk (upperChar c :: rest.map lowerChar)

/-- `\d` of the patterns: an ASCII decimal digit. -/
def isDigitChar (c : Char) : Bool := '0' ≤ c ∧ c ≤ '9'

/-- `\s` of the patterns: whitespace characters. -/
def isSpaceChar (c : Char) : Bool :=
  c = ' ' ∨ c = '\t' ∨ c = '\n' ∨ c = '\r' ∨ c = '\x0b' ∨ c = '\x0c'

/-- Greedy `\d+` / `\d*`: the maximal digit run and the rest. -/
def takeDigits : List Char → List Char × List Char
  | [] => ([], [])
  | c :: rest =>
    if isDigitChar c then
      let p := takeDigits rest
      (c :: p.1, p.2)
    else ([], c :: rest)

/-- Greedy `\s*`: drop the maximal whitespace run. -/
def dropSpaces : List Char → List Char
  | [] => []
  | c :: rest => if isSpaceChar c then dropSpaces rest else c :: rest

/-- Case-insensitively match a literal pattern (already lower-case) at the
head of the input; return the rest on success. -/
def litMatch : List Char → List Char → Option (List Char)
  | [], l => some l
  | _ :: _, [] => none
  | p :: ps, c :: cs => if lowerChar c = lowerChar p then litMatch ps cs else none

/-- The unit alternation `(?:м|метр)` of the length pattern
`(\d+(?:[.,]\d+)?)\s*(?:м|метр)` in `_parse_length_meters`
(both alternatives are Cyrillic in the source). -/
def unitMeters (l : List Char) : Option (List Char) :=
  match litMatch ['м'] l with
  | some r => some r
  | none => litMatch ['м', 'е', 'т', 'р'] l

/-- The alternative `км\s*/\s*ч` of the speed pattern. -/
def kmSlashCh (l : List Char) : Option (List Char) :=
  match litMatch ['к', 'м'] l with
  | none => none
  | some r1 =>
    match dropSpaces r1 with
    | [] => none
    | c :: r2 =>
      if c = '/' then
        match dropSpaces r2 with
        | [] => none
        | d :: r3 => if lowerChar d = 'ч' then some r3 else none
      else none

/-- The alternative `км\s*в\s*час` of the speed pattern. -/
def kmVChas (l : List Char) : Option (List Char) :=
  match litMatch ['к', 'м'] l with
  | none => none
  | some r1 =>
    match dropSpaces r1 with
    | [] => none
    | c :: r2 =>
      if lowerChar c = 'в' then litMatch ['ч', 'а', 'с'] (dropSpaces r2)
      else none

/-- The unit alternation `(?:км\s*/\s*ч|км\s*в\s*час|km/h|kmh)` of the
speed pattern in `_parse_speed_kmh`, alternatives tried in source order. -/
def unitKmh (l : List Char) : Option (List Char) :=
  match kmSlashCh l with
  | some r => some r
  | none =>
    match kmVChas l with
    | some r => some r
    | none =>
      match litMatch ['k', 'm', '/', 'h'] l with
      | some r => some r
      | none => litMatch ['k', 'm', 'h'] l

/-- Anchored match of `(\d+(?:[.,]\d+)?)\s*UNIT` at the head of the input:
greedy digits, optional greedy `[.,]\d+` fraction, greedy whitespace, then
the unit marker.  Returns the captured group and the rest after the match.
Backtracking into shorter digit or whitespace runs can never turn failure
into success for these patterns (a digit, dot or comma can never start a
unit marker), so the greedy-only strategy is equivalent to Python `re`. -/
def matchNumberUnit (unit : List Char → Option (List Char)) (l : List Char) :
    Option (List Char × List Char) :=
  let p1 := takeDigits l
  if p1.1.isEmpty then none
  else
    let p2 :=
      match p1.2 with
      | c :: r1 =>
        if c = '.' ∨ c = ',' then
          let pf := takeDigits r1
          if pf.1.isEmpty then (p1.1, p1.2) else (p1.1 ++ c :: pf.1, pf.2)
        else (p1.1, p1.2)
      | [] => (p1.1, p1.2)
    match unit (dropSpaces p2.2) with
    | some r4 => some (p2.1, r4)
    | none => none

/-- Model of `re.findall` for the two patterns: scan left to right, at each
position try an anchored match; on success record the group and resume
after the match, on failure advance one character.  `fuel` bounds the scan;
it is called with the input length, which suffices since every step
consumes at least one character. -/
def reFindAll (unit : List Char → Option (List Char)) :
    Nat → List Char → List (List Char)
  | 0, _ => []
  | _ + 1, [] => []
  | fuel + 1, c :: rest =>
    match matchNumberUnit unit (c :: rest) with
    | some (g, r) => g :: reFindAll unit fuel r
    | none => reFindAll unit fuel rest

/-- Numeric value of a digit string. -/
def natOfDigits (l : List Char) : Nat :=
  l.foldl (fun a c => a * 10 + (c.toNat - '0'.toNat)) 0

/-- Model of Python `str.replace(",", ".")` for a single-character
pattern. -/
def pyReplaceComma (s : String) : String :=
  String.mk (s.data.map fun c => if c = ',' then '.' else c)

/-- Split a character list at every dot (the semantics of Python
`str.split(".")` for a nonempty separator). -/
def splitDot : List Char → List Char → List (List Char)
  | [], acc => [acc.reverse]
  | c :: rest, acc =>
    if c = '.' then acc.reverse :: splitDot rest [] else splitDot rest (c :: acc)

/-- Model of Python `float()` on the captured groups (digits with at most
one dot), as an exact rational.  `i.f` denotes `(i * 10^k + f) / 10^k`
where `k` is the number of fraction digits; built with `Rat.divInt` so
that concrete values evaluate by kernel reduction. -/
def pyFloatOfString (s : String) : ℚ :=
  match splitDot s.data [] with
  | [i] => Rat.divInt (natOfDigits i) 1
  | [i, f] =>
    Rat.divInt (natOfDigits i * 10 ^ f.length + natOfDigits f) (10 ^ f.length)
  | _ => 0

/-- Model of Python `max()` on a nonempty list of floats: keep the current
element unless a later one is strictly greater (so the first maximal
element is returned, as Python does). -/
def pyMax : List ℚ → ℚ
  | [] => 0
  | x :: xs => xs.foldl (fun a c => if a < c then c else a) x

/-- `_parse_length_meters` (app/utils/reasoning.py):
`re.findall(r"(\d+(?:[.,]\d+)?)\s*(?:м|метр)", text, re.IGNORECASE)`,
raising `ValueError` when there are no matches, else the maximum of the
parsed values. -/
def _parse_length_meters (text : String) : Except String ℚ :=
  let ms := reFindAll unitMeters text.length text.data
  if ms.isEmpty then Except.error "Не удалось извлечь длину моста из текста"
  else
    Except.ok (pyMax (ms.map fun item => pyFloatOfString (pyReplaceComma (String.mk item))))

/-- `_parse_speed_kmh` (app/utils/reasoning.py):
`re.findall(r"(\d+(?:[.,]\d+)?)\s*(?:км\s*/\s*ч|км\s*в\s*час|km/h|kmh)", text, re.IGNORECASE)`,
raising `ValueError` when there are no matches, else the maximum of the
parsed values. -/
def _parse_speed_kmh (text : String) : Except String ℚ :=
  let ms := reFindAll unitKmh text.length text.data
  if ms.isEmpty then Except.error "Не удалось извлечь скорость гепарда из текста"
  else
    Except.ok (pyMax (ms.map fun item => pyFloatOfString (pyReplaceComma (String.mk item))))

/-! ## Rational arithmetic helpers

Python float arithmetic is modelled exactly over ℚ.  The operations are
expressed through `Rat.divInt` so that concrete values reduce in the
kernel; the lemmas `qDiv_eq`, `qMul_eq`, `qSub_eq` and `intToQ_eq` below
identify them with the ordinary field operations. -/

/-- The integer `n` as a rational. -/
def intToQ (n : ℤ) : ℚ := Rat.divInt n 1

/-- Exact model of Python float division `a / b`. -/
def qDiv (a b : ℚ) : ℚ := Rat.divInt (a.num * b.den) (a.den * b.num)

/-- Exact model of Python float multiplication `a * b`. -/
def qMul (a b : ℚ) : ℚ := Rat.divInt (a.num * b.num) (a.den * b.den)

/-- Exact model of Python float subtraction `a - b`. -/
def qSub (a b : ℚ) : ℚ := Rat.divInt (a.num * b.den - b.num * a.den) (a.den * b.den)

/-! ## Data model (app/core/models.py) -/

/-- A JSON-like value stored in a `ReasoningStep.data` mapping
(`dict[str, Any]` in the source). -/
inductive JValue where
  | str (s : String)
  | num (q : ℚ)
  | bool (b : Bool)
  | null
deriving DecidableEq

/-- `WikipediaSearchResult` (app/core/models.py): one search hit. -/
structure WikipediaSearchResult where
  page_id : ℤ
  title : String
  snippet : Option String := none
deriving DecidableEq

/-- `WikipediaPageSummary` (app/core/models.py). -/
structure WikipediaPageSummary where
  page_id : ℤ
  title : String
  extract : String
  description : Option String := none
deriving DecidableEq

/-- `BridgeInfo` (app/core/models.py): `length_meters` is a plain
(unconstrained) float in the source. -/
structure BridgeInfo where
  name : String
  length_meters : ℚ
  source : String
deriving DecidableEq

/-- `AnimalSpeed` (app/core/models.py): `speed_m_s` is a plain
(unconstrained) float in the source. -/
structure AnimalSpeed where
  name : String
  speed_m_s : ℚ
  source : String
  speed_km_h : Option ℚ := none
deriving DecidableEq

/-- `ReasoningStep` (app/core/models.py): the `data` dict is modelled as
an association list in insertion order. -/
structure ReasoningStep where
  description : String
  data : Option (List (String × JValue)) := none
deriving DecidableEq

/-- `ReasoningResult` (app/core/models.py). -/
structure ReasoningResult where
  bridge : BridgeInfo
  animal : AnimalSpeed
  time_seconds : ℚ
  time_human_readable : String
  steps : List ReasoningStep
deriving DecidableEq

/-- `kmh_to_ms` (app/core/models.py): `speed_km_h / 3.6`
(the literal 3.6 is `mkRat 36 10`). -/
def kmh_to_ms (speed_km_h : ℚ) : ℚ := qDiv speed_km_h (mkRat 36 10)

/-- `AnimalSpeed.from_kmh` (app/core/models.py). -/
def AnimalSpeed.from_kmh (name : String) (speed_km_h : ℚ) (source : String) :
    AnimalSpeed :=
  { name := name, speed_m_s := kmh_to_ms speed_km_h, source := source,
    speed_km_h := some speed_km_h }

/-- Round a rational to the nearest integer, ties to even: the rounding
Python applies when formatting a float with `:.1f` (exact halves are the
only case where the tie rule matters; on non-ties this is ordinary nearest
rounding). -/
def rne (x : ℚ) : ℤ :=
  let f := x.floor
  let r := qSub x (intToQ f)
  if r < mkRat 1 2 then f
  else if mkRat 1 2 < r then f + 1
  else if f % 2 = 0 then f
  else f + 1

/-- Model of Python `f"{x:.1f}"` on a nonnegative float: round `10 * x`
to the nearest integer (ties to even) and print one fractional digit. -/
def pyFormat1 (x : ℚ) : String :=
  let n := rne (qMul 10 x)
  toString (n / 10) ++ "." ++ toString (n % 10)

/-- `format_seconds` (app/core/models.py): below 60 seconds render one
decimal; otherwise `minutes = int(seconds // 60)`,
`remainder = seconds - minutes * 60`, and the remainder is rendered only
when it is at least 0.1 (`mkRat 1 10`). -/
def format_seconds (seconds : ℚ) : String :=
  if seconds < 60 then pyFormat1 seconds ++ " секунд"
  else
    let minutes : ℤ := (qDiv seconds 60).floor
    let remainder := qSub seconds (intToQ (minutes * 60))
    if remainder < mkRat 1 10 then toString minutes ++ " минут"
    else toString minutes ++ " минут " ++ pyFormat1 remainder ++ " секунд"

/-! ## Wikipedia client (app/utils/wikipedia_client.py)

The HTTP client is modelled as a record of behaviour functions, one value
per possible network behaviour.  `search_page` models
`WikipediaClient.search_page`: `Except.error` is a raised `RuntimeError`
(network failure), `Except.ok none` is "no search results".
`get_page_summary` takes the page id and `intro_only`; `Except.error`
covers both the raised `RuntimeError` and the raised `LookupError`. -/

structure WikipediaClient where
  base_url : String
  search_page : String → Except String (Option WikipediaSearchResult)
  get_page_summary : ℤ → Bool → Except String WikipediaPageSummary

/-- `str.startswith` on strings. -/
def strStartsWith (s pre : String) : Bool := pre.data.isPrefixOf s.data

/-- Everything before the first occurrence of `sep`, or the whole input
when `sep` does not occur: Python `s.split(sep)[0]`. -/
def takeUntilSep (sep : List Char) : List Char → List Char
  | [] => []
  | c :: rest =>
    if sep.isPrefixOf (c :: rest) then [] else c :: takeUntilSep sep rest

/-- `_build_page_url` (app/utils/reasoning.py):
`api_base.split("/w/")[0] + f"/?curid={page_id}"`. -/
def _build_page_url (page_id : ℤ) (api_base : String) : String :=
  String.mk (takeUntilSep "/w/".data api_base.data) ++ "/?curid=" ++ toString page_id

/-- The base url of the secondary client constructed inside
`get_animal_speed`: `WikipediaClient(base_url="https://en.wikipedia.org/w/api.php")`. -/
def en_wikipedia_api_base : String := "https://en.wikipedia.org/w/api.php"

/-! ## Fact resolvers (app/utils/reasoning.py) -/

/-- The `try` block of `get_bridge_info_big_stone_bridge`: search the fixed
bridge page (absence raised as a `LookupError`), fetch the intro-only
summary, parse the length, and on a parse failure only (`ValueError`)
re-fetch the full body and parse once more.  Any error propagates. -/
def bridge_try (client : WikipediaClient) : Except String BridgeInfo :=
  match client.search_page "Большой Каменный мост" with
  | Except.error e => Except.error e
  | Except.ok none => Except.error "Статья \x27Большой Каменный мост\x27 не найдена"
  | Except.ok (some search) =>
    match client.get_page_summary search.page_id true with
    | Except.error e => Except.error e
    | Except.ok summary =>
      match
        (match _parse_length_meters summary.extract with
         | Except.ok v => Except.ok v
         | Except.error _ =>
           match client.get_page_summary search.page_id false with
           | Except.error e => Except.error e
           | Except.ok summary2 => _parse_length_meters summary2.extract) with
      | Except.error e => Except.error e
      | Except.ok length_meters =>
        Except.ok
          { name := search.title, length_meters := length_meters,
            source := _build_page_url search.page_id client.base_url }

/-- `get_bridge_info_big_stone_bridge` (app/utils/reasoning.py): the whole
`try` block under a catch-all `except Exception` returning the fixed
fallback fact (length 487.0) with the error text in `source`. -/
def get_bridge_info_big_stone_bridge (client : WikipediaClient) : BridgeInfo :=
  match bridge_try client with
  | Except.ok bridge => bridge
  | Except.error exc =>
    { name := "Большой Каменный мост (fallback)", length_meters := 487,
      source := "fallback:" ++ exc }

/-- The `try` block of `get_animal_speed`.  `en_network` supplies the
behaviour of the secondary client constructed in the source as
`WikipediaClient(base_url="https://en.wikipedia.org/w/api.php")`; its
`base_url` is fixed to that constant by the constructor. -/
def animal_try (client en_network : WikipediaClient) (animal_name : String) :
    Except String AnimalSpeed :=
  match client.search_page animal_name with
  | Except.error e => Except.error e
  | Except.ok first =>
    match
      (match first with
       | some r => Except.ok (some r)
       | none => client.search_page (pyCapitalize animal_name)) with
    | Except.error e => Except.error e
    | Except.ok search0 =>
      let fb : WikipediaClient :=
        { base_url := en_wikipedia_api_base,
          search_page := en_network.search_page,
          get_page_summary := en_network.get_page_summary }
      match
        (match search0 with
         | some r => Except.ok (some r, client)
         | none =>
           if strStartsWith client.base_url "https://en.wikipedia.org" then
             Except.ok (none, client)
           else
             match fb.search_page (pyCapitalize animal_name) with
             | Except.error e => Except.error e
             | Except.ok (some r) => Except.ok (some r, fb)
             | Except.ok none => Except.ok (none, client)) with
      | Except.error e => Except.error e
      | Except.ok (none, _) =>
        Except.error ("Статья про \x27" ++ animal_name ++ "\x27 не найдена")
      | Except.ok (some search, effective_client) =>
        match effective_client.get_page_summary search.page_id true with
        | Except.error e => Except.error e
        | Except.ok summary =>
          match
            (match _parse_speed_kmh summary.extract with
             | Except.ok v => Except.ok v
             | Except.error _ =>
               match effective_client.get_page_summary search.page_id false with
               | Except.error e => Except.error e
               | Except.ok summary2 => _parse_speed_kmh summary2.extract) with
          | Except.error e => Except.error e
          | Except.ok speed_km_h =>
            Except.ok
              (AnimalSpeed.from_kmh search.title speed_km_h
                (_build_page_url search.page_id effective_client.base_url))

/-- `get_animal_speed` (app/utils/reasoning.py): the whole `try` block
under a catch-all `except Exception` returning the fixed fallback fact
(90 km/h) with the error text in `source`. -/
def get_animal_speed (client en_network : WikipediaClient) (animal_name : String) :
    AnimalSpeed :=
  match animal_try client en_network animal_name with
  | Except.ok animal => animal
  | Except.error exc =>
    AnimalSpeed.from_kmh (animal_name ++ " (fallback)") 90 ("fallback:" ++ exc)

/-! ## Crossing-time calculator (app/utils/reasoning.py) -/

/-- The optional `speed_km_h` float as a step-data value. -/
def jOfOptQ : Option ℚ → JValue
  | none => JValue.null
  | some q => JValue.num q

/-- `estimate_crossing_time` (app/utils/reasoning.py): raise a
`ValueError` on non-positive speed, else compute
`time_seconds = bridge.length_meters / animal.speed_m_s` and return the
result with its three audit steps. -/
def estimate_crossing_time (bridge : BridgeInfo) (animal : AnimalSpeed) :
    Except String ReasoningResult :=
  if animal.speed_m_s ≤ 0 then
    Except.error "Скорость животного должна быть положительной"
  else
    let time_seconds := qDiv bridge.length_meters animal.speed_m_s
    Except.ok
      { bridge := bridge, animal := animal, time_seconds := time_seconds,
        time_human_readable := format_seconds time_seconds,
        steps :=
          [{ description := "Получена длина моста",
             data := some [("name", JValue.str bridge.name),
                           ("length_meters", JValue.num bridge.length_meters)] },
           { description := "Получена скорость животного",
             data := some [("name", JValue.str animal.name),
                           ("speed_m_s", JValue.num animal.speed_m_s),
                           ("speed_km_h", jOfOptQ animal.speed_km_h)] },
           { description := "Рассчитано время пересечения",
             data := some [("time_seconds", JValue.num time_seconds)] }] }

/-! ## Self-check validator (app/utils/self_check.py) -/

/-- `TIME_RANGE` (app/utils/self_check.py): `(0.5, 600.0)`. -/
def TIME_RANGE : ℚ × ℚ := (mkRat 1 2, 600)

/-- `BRIDGE_RANGE` (app/utils/self_check.py): `(20.0, 1000.0)`. -/
def BRIDGE_RANGE : ℚ × ℚ := (20, 1000)

/-- `SPEED_RANGE` (app/utils/self_check.py): `(5.0, 100.0)`. -/
def SPEED_RANGE : ℚ × ℚ := (5, 100)

/-- `_check_range` (app/utils/self_check.py): inclusive range check with a
step whose data records the value, the bounds, the units and the
"ok"/"fail" status. -/
def _check_range (value min_v max_v : ℚ) (description units : String) :
    ReasoningStep :=
  { description := description,
    data := some [("value", JValue.num value), ("min", JValue.num min_v),
                  ("max", JValue.num max_v), ("units", JValue.str units),
                  ("status", JValue.str (if min_v ≤ value ∧ value ≤ max_v then "ok" else "fail"))] }

/-- `self_check_result` (app/utils/self_check.py).  `llm_step` is the
outcome of `_llm_self_check`: `none` when no LLM client is supplied, and
otherwise the advisory step built from the answer of the external model (or
from the caught error); it is appended last and does not influence `ok`. -/
def self_check_result (result : ReasoningResult) (llm_step : Option ReasoningStep) :
    Bool × List ReasoningStep :=
  let time_step := _check_range result.time_seconds TIME_RANGE.1 TIME_RANGE.2
    "Проверка времени пересечения" "секунды"
  let bridge_step := _check_range result.bridge.length_meters BRIDGE_RANGE.1 BRIDGE_RANGE.2
    "Проверка длины моста" "метры"
  let speed_step := _check_range result.animal.speed_m_s SPEED_RANGE.1 SPEED_RANGE.2
    "Проверка скорости гепарда" "м/с"
  let checks := [time_step, bridge_step, speed_step]
  let ok := checks.all fun st =>
    match st.data with
    | some d => decide (d ≠ []) && decide (List.lookup "status" d = some (JValue.str "ok"))
    | none => false
  let summary_step : ReasoningStep :=
    { description := "Итог self-check",
      data := some [("ok", JValue.bool ok),
                    ("note", JValue.str "При ok=False результат сомнителен. TODO: пересчитать с альтернативными источниками при необходимости.")] }
  (ok, checks ++ [summary_step] ++ llm_step.toList)

/-! ## Derived views of the parsers -/

/-- The list of numeric values extracted by `_parse_length_meters` before
taking the maximum. -/
def parsedLengthValues (text : String) : List ℚ :=
  (reFindAll unitMeters text.length text.data).map fun item =>
    pyFloatOfString (pyReplaceComma (String.mk item))

/-- The list of numeric values extracted by `_parse_speed_kmh` before
taking the maximum. -/
def parsedSpeedValues (text : String) : List ℚ :=
  (reFindAll unitKmh text.length text.data).map fun item =>
    pyFloatOfString (pyReplaceComma (String.mk item))

/-! ## Concrete client behaviours used as witnesses and counterexamples -/

/-- A retrieval client whose every call raises (network down). -/
def failing_client : WikipediaClient :=
  { base_url := "https://ru.wikipedia.org/w/api.php",
    search_page := fun _ => Except.error "boom",
    get_page_summary := fun _ _ => Except.error "boom" }

/-- A primary-language client that finds no search results and whose
summary endpoint fails. -/
def c6_primary : WikipediaClient :=
  { base_url := "https://ru.wikipedia.org/w/api.php",
    search_page := fun _ => Except.ok none,
    get_page_summary := fun _ _ => Except.error "summary down" }

/-- The search hit returned by the secondary (English) behaviours below. -/
def c6_secondary_hit : WikipediaSearchResult :=
  { page_id := 100, title := "Cheetah (EN)", snippet := none }

/-- Secondary English behaviour whose search succeeds but whose summary
endpoint fails. -/
def c6_en_broken : WikipediaClient :=
  { base_url := "ignored",
    search_page := fun _ => Except.ok (some c6_secondary_hit),
    get_page_summary := fun _ _ => Except.error "summary down" }

/-- Secondary English behaviour whose search and summary both succeed;
the extract carries a parsable speed. -/
def c6_en_ok : WikipediaClient :=
  { base_url := "ignored",
    search_page := fun _ => Except.ok (some c6_secondary_hit),
    get_page_summary := fun _ _ =>
      Except.ok { page_id := 100, title := "dummy",
                  extract := "Typical speed reaches 108 km/h.", description := none } }

/-- A client serving a bridge page whose text parses to a zero length. -/
def zero_length_client : WikipediaClient :=
  { base_url := "https://example.com",
    search_page := fun _ => Except.ok (some { page_id := 1, title := "B", snippet := none }),
    get_page_summary := fun _ _ =>
      Except.ok { page_id := 1, title := "B", extract := "0 м", description := none } }

/-- A client serving an animal page whose text parses to a zero speed. -/
def zero_speed_client : WikipediaClient :=
  { base_url := "https://example.com",
    search_page := fun _ => Except.ok (some { page_id := 2, title := "A", snippet := none }),
    get_page_summary := fun _ _ =>
      Except.ok { page_id := 2, title := "A", extract := "0 км/ч", description := none } }

/-- A well-behaved client for witnesses: finds the bridge page and serves
an extract with a parsable length. -/
def ok_bridge_client : WikipediaClient :=
  { base_url := "https://ru.wikipedia.org/w/api.php",
    search_page := fun _ => Except.ok (some { page_id := 7, title := "Большой Каменный мост", snippet := none }),
    get_page_summary := fun _ _ =>
      Except.ok { page_id := 7, title := "Большой Каменный мост",
                  extract := "Длина моста 487 м.", description := none } }

/-! ## Helper lemmas -/

theorem intToQ_eq (n : ℤ) : intToQ n = (n : ℚ) := by
  rw [intToQ, Rat.divInt_eq_div]
  simp

theorem qDiv_eq (a b : ℚ) : qDiv a b = a / b := by
  rw [qDiv, Rat.divInt_eq_div]
  rcases eq_or_ne b 0 with hb | hb
  · subst hb
    simp
  · have ha1 : ((a.den : ℚ)) ≠ 0 := by
      exact_mod_cast a.den_ne_zero
    have hb1 : ((b.den : ℚ)) ≠ 0 := by
      exact_mod_cast b.den_ne_zero
    have hb2 : ((b.num : ℚ)) ≠ 0 := by
      exact_mod_cast Rat.num_ne_zero.mpr hb
    conv_rhs => rw [← Rat.num_div_den a, ← Rat.num_div_den b]
    push_cast
    field_simp

theorem qMul_eq (a b : ℚ) : qMul a b = a * b := by
  rw [qMul, Rat.divInt_eq_div]
  have ha1 : ((a.den : ℚ)) ≠ 0 := by
    exact_mod_cast a.den_ne_zero
  have hb1 : ((b.den : ℚ)) ≠ 0 := by
    exact_mod_cast b.den_ne_zero
  conv_rhs => rw [← Rat.num_div_den a, ← Rat.num_div_den b]
  push_cast
  field_simp

theorem qSub_eq (a b : ℚ) : qSub a b = a - b := by
  rw [qSub, Rat.divInt_eq_div]
  have ha1 : ((a.den : ℚ)) ≠ 0 := by
    exact_mod_cast a.den_ne_zero
  have hb1 : ((b.den : ℚ)) ≠ 0 := by
    exact_mod_cast b.den_ne_zero
  conv_rhs => rw [← Rat.num_div_den a, ← Rat.num_div_den b]
  push_cast
  field_simp
  ring

theorem ratFloor_eq (q : ℚ) : q.floor = ⌊q⌋ := by
  rw [Rat.floor_def, Rat.floor_def']

theorem mkRat_36_10 : (mkRat 36 10 : ℚ) = 36 / 10 := by
  rw [Rat.mkRat_eq_divInt, Rat.divInt_eq_div]
  norm_num

theorem mkRat_1_2 : (mkRat 1 2 : ℚ) = 1 / 2 := by
  rw [Rat.mkRat_eq_divInt, Rat.divInt_eq_div]
  norm_num

theorem mkRat_1_10 : (mkRat 1 10 : ℚ) = 1 / 10 := by
  rw [Rat.mkRat_eq_divInt, Rat.divInt_eq_div]
  norm_num

theorem kmh_to_ms_eq (v : ℚ) : kmh_to_ms v = v / (36 / 10) := by
  rw [kmh_to_ms, qDiv_eq, mkRat_36_10]

theorem pyMax_fold_eq_max :
    (fun (a c : ℚ) => if a < c then c else a) = max := by
  funext a c
  rcases lt_or_ge a c with h | h
  · rw [if_pos h, max_eq_right h.le]
  · rw [if_neg (not_lt.mpr h), max_eq_left h]

theorem pyMax_cons (x : ℚ) (xs : List ℚ) :
    pyMax (x :: xs) = xs.foldl max x := by
  rw [pyMax, pyMax_fold_eq_max]

theorem foldl_max_start_le (xs : List ℚ) (a : ℚ) : a ≤ xs.foldl max a := by
  induction xs generalizing a with
  | nil => exact le_refl a
  | cons y ys ih => exact le_trans (le_max_left a y) (ih (max a y))

theorem foldl_max_le_of_mem (xs : List ℚ) (a x : ℚ) (hx : x ∈ xs) :
    x ≤ xs.foldl max a := by
  induction xs generalizing a with
  | nil => cases hx
  | cons y ys ih =>
    rcases List.mem_cons.mp hx with h | h
    · subst h
      exact le_trans (le_max_right a x) (foldl_max_start_le ys (max a x))
    · exact ih (max a y) h

theorem foldl_max_mem (xs : List ℚ) (a : ℚ) :
    xs.foldl max a = a ∨ xs.foldl max a ∈ xs := by
  induction xs generalizing a with
  | nil => exact Or.inl rfl
  | cons y ys ih =>
    rcases ih (max a y) with h | h
    · rcases le_total a y with hy | hy
      · exact Or.inr (by rw [List.foldl_cons, h, max_eq_right hy]; exact List.mem_cons_self y ys)
      · exact Or.inl (by rw [List.foldl_cons, h, max_eq_left hy])
    · exact Or.inr (List.mem_cons_of_mem y h)

theorem pyMax_mem (l : List ℚ) (h : l ≠ []) : pyMax l ∈ l := by
  match l with
  | [] => exact absurd rfl h
  | x :: xs =>
    rw [pyMax_cons]
    rcases foldl_max_mem xs x with h1 | h1
    · rw [h1]; exact List.mem_cons_self x xs
    · exact List.mem_cons_of_mem x h1

theorem le_pyMax (l : List ℚ) (x : ℚ) (hx : x ∈ l) : x ≤ pyMax l := by
  match l with
  | [] => cases hx
  | y :: ys =>
    rw [pyMax_cons]
    rcases List.mem_cons.mp hx with h | h
    · subst h
      exact foldl_max_start_le ys x
    · exact foldl_max_le_of_mem ys y x h

theorem pyFloatOfString_nonneg (s : String) : 0 ≤ pyFloatOfString s := by
  unfold pyFloatOfString
  split
  · rw [Rat.divInt_eq_div]
    positivity
  · rw [Rat.divInt_eq_div]
    positivity
  · exact le_refl 0

theorem pyMax_nonneg (l : List ℚ) (h : ∀ x ∈ l, 0 ≤ x) (hne : l ≠ []) :
    0 ≤ pyMax l :=
  h _ (pyMax_mem l hne)

theorem parsedLengthValues_nonneg (t : String) :
    ∀ x ∈ parsedLengthValues t, 0 ≤ x := by
  intro x hx
  rcases List.mem_map.mp hx with ⟨item, _, rfl⟩
  exact pyFloatOfString_nonneg _

theorem parsedSpeedValues_nonneg (t : String) :
    ∀ x ∈ parsedSpeedValues t, 0 ≤ x := by
  intro x hx
  rcases List.mem_map.mp hx with ⟨item, _, rfl⟩
  exact pyFloatOfString_nonneg _

theorem parse_length_ok_max (t : String) (v : ℚ)
    (h : _parse_length_meters t = Except.ok v) :
    v ∈ parsedLengthValues t ∧ ∀ w ∈ parsedLengthValues t, w ≤ v := by
  by_cases he : reFindAll unitMeters t.length t.data = []
  · simp [_parse_length_meters, he] at h
  · have hne : parsedLengthValues t ≠ [] := by
      simp [parsedLengthValues, he]
    have hv : pyMax (parsedLengthValues t) = v := by
      simp only [_parse_length_meters, List.isEmpty_eq_true, he, if_false,
        parsedLengthValues] at h ⊢
      exact Except.ok.inj h
    exact hv ▸ ⟨pyMax_mem _ hne, fun w hw => le_pyMax _ w hw⟩

theorem parse_speed_ok_max (t : String) (v : ℚ)
    (h : _parse_speed_kmh t = Except.ok v) :
    v ∈ parsedSpeedValues t ∧ ∀ w ∈ parsedSpeedValues t, w ≤ v := by
  by_cases he : reFindAll unitKmh t.length t.data = []
  · simp [_parse_speed_kmh, he] at h
  · have hne : parsedSpeedValues t ≠ [] := by
      simp [parsedSpeedValues, he]
    have hv : pyMax (parsedSpeedValues t) = v := by
      simp only [_parse_speed_kmh, List.isEmpty_eq_true, he, if_false,
        parsedSpeedValues] at h ⊢
      exact Except.ok.inj h
    exact hv ▸ ⟨pyMax_mem _ hne, fun w hw => le_pyMax _ w hw⟩

theorem parse_length_ok_nonneg (t : String) (v : ℚ)
    (h : _parse_length_meters t = Except.ok v) : 0 ≤ v :=
  parsedLengthValues_nonneg t v (parse_length_ok_max t v h).1

theorem parse_speed_ok_nonneg (t : String) (v : ℚ)
    (h : _parse_speed_kmh t = Except.ok v) : 0 ≤ v :=
  parsedSpeedValues_nonneg t v (parse_speed_ok_max t v h).1

theorem bridge_try_ok_nonneg (client : WikipediaClient) (b : BridgeInfo)
    (h : bridge_try client = Except.ok b) : 0 ≤ b.length_meters := by
  cases hs : client.search_page "Большой Каменный мост" with
  | error e => simp [bridge_try, hs] at h
  | ok os =>
    cases os with
    | none => simp [bridge_try, hs] at h
    | some sr =>
      cases hps : client.get_page_summary sr.page_id true with
      | error e => simp [bridge_try, hs, hps] at h
      | ok summary =>
        cases hp : _parse_length_meters summary.extract with
        | ok v =>
          simp only [bridge_try, hs, hps, hp] at h
          rcases Except.ok.inj h with h'
          rw [← h']
          exact parse_length_ok_nonneg _ _ hp
        | error e1 =>
          cases hps2 : client.get_page_summary sr.page_id false with
          | error e2 => simp [bridge_try, hs, hps, hp, hps2] at h
          | ok summary2 =>
            cases hp2 : _parse_length_meters summary2.extract with
            | error e3 => simp [bridge_try, hs, hps, hp, hps2, hp2] at h
            | ok v =>
              simp only [bridge_try, hs, hps, hp, hps2, hp2] at h
              rcases Except.ok.inj h with h'
              rw [← h']
              exact parse_length_ok_nonneg _ _ hp2

theorem kmh_to_ms_nonneg (v : ℚ) (hv : 0 ≤ v) : 0 ≤ kmh_to_ms v := by
  rw [kmh_to_ms_eq]
  positivity

theorem animal_parse_part_nonneg (effective_client : WikipediaClient)
    (search : WikipediaSearchResult) (summary : WikipediaPageSummary)
    (a : AnimalSpeed)
    (h :
      (match
         (match _parse_speed_kmh summary.extract with
          | Except.ok v => Except.ok v
          | Except.error _ =>
            match effective_client.get_page_summary search.page_id false with
            | Except.error e => Except.error e
            | Except.ok summary2 => _parse_speed_kmh summary2.extract) with
       | Except.error e => Except.error e
       | Except.ok speed_km_h =>
         Except.ok
           (AnimalSpeed.from_kmh search.title speed_km_h
             (_build_page_url search.page_id effective_client.base_url))) =
      Except.ok a) :
    0 ≤ a.speed_m_s := by
  have key : ∀ p : Except String ℚ, (∀ v, p = Except.ok v → 0 ≤ v) →
      (match p with
       | Except.error e => Except.error e
       | Except.ok speed_km_h =>
         Except.ok
           (AnimalSpeed.from_kmh search.title speed_km_h
             (_build_page_url search.page_id effective_client.base_url))) =
        Except.ok a →
      0 ≤ a.speed_m_s := by
    intro p hp hm
    cases hpv : p with
    | error e => rw [hpv] at hm; exact absurd hm (by simp)
    | ok v =>
      rw [hpv] at hm
      rcases Except.ok.inj hm with h'
      rw [← h']
      exact kmh_to_ms_nonneg _ (hp v hpv)
  refine key _ ?_ h
  intro v hv
  cases hp : _parse_speed_kmh summary.extract with
  | ok w =>
    rw [hp] at hv
    have h2 : w = v := Except.ok.inj hv
    rw [← h2]
    exact parse_speed_ok_nonneg _ _ hp
  | error e1 =>
    rw [hp] at hv
    cases hq : effective_client.get_page_summary search.page_id false with
    | error e2 => rw [hq] at hv; exact absurd hv (by simp)
    | ok s2 =>
      rw [hq] at hv
      exact parse_speed_ok_nonneg _ _ hv

theorem animal_try_summary_nonneg (effective_client : WikipediaClient)
    (search : WikipediaSearchResult) (a : AnimalSpeed)
    (h :
      (match effective_client.get_page_summary search.page_id true with
       | Except.error e => Except.error e
       | Except.ok summary =>
         match
           (match _parse_speed_kmh summary.extract with
            | Except.ok v => Except.ok v
            | Except.error _ =>
              match effective_client.get_page_summary search.page_id false with
              | Except.error e => Except.error e
              | Except.ok summary2 => _parse_speed_kmh summary2.extract) with
         | Except.error e => Except.error e
         | Except.ok speed_km_h =>
           Except.ok
             (AnimalSpeed.from_kmh search.title speed_km_h
               (_build_page_url search.page_id effective_client.base_url))) =
      Except.ok a) :
    0 ≤ a.speed_m_s := by
  cases hps : effective_client.get_page_summary search.page_id true with
  | error e => rw [hps] at h; exact absurd h (by simp)
  | ok summary =>
    rw [hps] at h
    exact animal_parse_part_nonneg effective_client search summary a h

theorem animal_try_ok_nonneg (client en_network : WikipediaClient)
    (animal_name : String) (a : AnimalSpeed)
    (h : animal_try client en_network animal_name = Except.ok a) :
    0 ≤ a.speed_m_s := by
  unfold animal_try at h
  cases h1 : client.search_page animal_name with
  | error e => rw [h1] at h; exact absurd h (by simp)
  | ok first =>
    rw [h1] at h
    cases first with
    | some r => exact animal_try_summary_nonneg client r a h
    | none =>
      cases h2 : client.search_page (pyCapitalize animal_name) with
      | error e => rw [h2] at h; exact absurd h (by simp)
      | ok s2 =>
        rw [h2] at h
        cases s2 with
        | some r => exact animal_try_summary_nonneg client r a h
        | none =>
          cases hsw : strStartsWith client.base_url "https://en.wikipedia.org" with
          | true => simp only [hsw, if_true] at h; exact absurd h (by simp)
          | false =>
            simp only [hsw, Bool.false_eq_true, if_false] at h
            cases h3 : en_network.search_page (pyCapitalize animal_name) with
            | error e => rw [h3] at h; exact absurd h (by simp)
            | ok os3 =>
              rw [h3] at h
              cases os3 with
              | some r =>
                exact animal_try_summary_nonneg
                  ⟨en_wikipedia_api_base, en_network.search_page,
                    en_network.get_page_summary⟩ r a h
              | none => exact absurd h (by simp)

theorem get_bridge_ok (client : WikipediaClient) (b : BridgeInfo)
    (h : bridge_try client = Except.ok b) :
    get_bridge_info_big_stone_bridge client = b := by
  rw [get_bridge_info_big_stone_bridge, h]

theorem get_bridge_error (client : WikipediaClient) (e : String)
    (h : bridge_try client = Except.error e) :
    get_bridge_info_big_stone_bridge client =
      { name := "Большой Каменный мост (fallback)", length_meters := 487,
        source := "fallback:" ++ e } := by
  rw [get_bridge_info_big_stone_bridge, h]

theorem get_animal_ok (client en_network : WikipediaClient) (animal_name : String)
    (a : AnimalSpeed) (h : animal_try client en_network animal_name = Except.ok a) :
    get_animal_speed client en_network animal_name = a := by
  rw [get_animal_speed, h]

theorem get_animal_error (client en_network : WikipediaClient)
    (animal_name e : String)
    (h : animal_try client en_network animal_name = Except.error e) :
    get_animal_speed client en_network animal_name =
      AnimalSpeed.from_kmh (animal_name ++ " (fallback)") 90 ("fallback:" ++ e) := by
  rw [get_animal_speed, h]

theorem bridge_try_search_error (client : WikipediaClient) (e : String)
    (h : client.search_page "Большой Каменный мост" = Except.error e) :
    bridge_try client = Except.error e := by
  rw [bridge_try, h]

theorem animal_try_search_error (client en_network : WikipediaClient)
    (animal_name e : String) (h : client.search_page animal_name = Except.error e) :
    animal_try client en_network animal_name = Except.error e := by
  rw [animal_try, h]

theorem from_kmh_90 :
    AnimalSpeed.from_kmh "x" 90 "y" =
      { name := "x", speed_m_s := 90 / (36 / 10 : ℚ), source := "y",
        speed_km_h := some 90 } := by
  rw [AnimalSpeed.from_kmh, kmh_to_ms_eq]

/-! ## Claim theorems -/

/-- Claim C1: for every bridge fact and every animal fact with positive
speed, `estimate_crossing_time` returns a result whose `time_seconds` is
exactly `length_meters / speed_m_s`, whose `time_human_readable` is the
`format_seconds` rendering of that time, and whose steps are exactly the
three audit records, in order: bridge fact observed, animal fact observed,
computed time, each with its numeric payload. -/
theorem estimate_crossing_time_spec (bridge : BridgeInfo) (animal : AnimalSpeed)
    (h : 0 < animal.speed_m_s) :
    estimate_crossing_time bridge animal =
      Except.ok
        { bridge := bridge,
          animal := animal,
          time_seconds := bridge.length_meters / animal.speed_m_s,
          time_human_readable :=
            format_seconds (bridge.length_meters / animal.speed_m_s),
          steps :=
            [{ description := "Получена длина моста",
               data := some [("name", JValue.str bridge.name),
                             ("length_meters", JValue.num bridge.length_meters)] },
             { description := "Получена скорость животного",
               data := some [("name", JValue.str animal.name),
                             ("speed_m_s", JValue.num animal.speed_m_s),
                             ("speed_km_h", jOfOptQ animal.speed_km_h)] },
             { description := "Рассчитано время пересечения",
               data := some [("time_seconds",
                 JValue.num (bridge.length_meters / animal.speed_m_s))] }] } := by
  have hns : ¬ animal.speed_m_s ≤ 0 := not_le.mpr h
  simp only [estimate_crossing_time, if_neg hns, qDiv_eq]

/-- Witness for C1 at the mock input of the test of the repository itself:
length 200, speed 25. -/
theorem estimate_crossing_time_spec_witness :
    (0 : ℚ) < 25 ∧
    estimate_crossing_time
        { name := "Mock Bridge", length_meters := 200, source := "mock:b" }
        { name := "Mock Cheetah", speed_m_s := 25, source := "mock:c",
          speed_km_h := none } =
      Except.ok
        { bridge := { name := "Mock Bridge", length_meters := 200, source := "mock:b" },
          animal := { name := "Mock Cheetah", speed_m_s := 25, source := "mock:c",
                      speed_km_h := none },
          time_seconds := (200 : ℚ) / 25,
          time_human_readable := format_seconds ((200 : ℚ) / 25),
          steps :=
            [{ description := "Получена длина моста",
               data := some [("name", JValue.str "Mock Bridge"),
                             ("length_meters", JValue.num 200)] },
             { description := "Получена скорость животного",
               data := some [("name", JValue.str "Mock Cheetah"),
                             ("speed_m_s", JValue.num 25),
                             ("speed_km_h", jOfOptQ none)] },
             { description := "Рассчитано время пересечения",
               data := some [("time_seconds", JValue.num ((200 : ℚ) / 25))] }] } :=
  ⟨by decide, estimate_crossing_time_spec _ _ (by decide)⟩

/-- Claim C3: for every bridge fact and every animal fact with
non-positive speed, `estimate_crossing_time` raises the validation error
and never returns a result. -/
theorem estimate_crossing_time_nonpositive_speed (bridge : BridgeInfo)
    (animal : AnimalSpeed) (h : animal.speed_m_s ≤ 0) :
    estimate_crossing_time bridge animal =
      Except.error "Скорость животного должна быть положительной" := by
  simp only [estimate_crossing_time, if_pos h]

/-- Witness for C3 at speed 0 (the input of the repository test). -/
theorem estimate_crossing_time_nonpositive_speed_witness :
    ({ name := "Slow Animal", speed_m_s := 0, source := "mock:a",
       speed_km_h := none } : AnimalSpeed).speed_m_s ≤ 0 ∧
    estimate_crossing_time
        { name := "Any Bridge", length_meters := 100, source := "mock:b" }
        { name := "Slow Animal", speed_m_s := 0, source := "mock:a",
          speed_km_h := none } =
      Except.error "Скорость животного должна быть положительной" :=
  ⟨by decide, estimate_crossing_time_nonpositive_speed _ _ (by decide)⟩

/-- Claim C10: on the success path `estimate_crossing_time` embeds its
inputs verbatim: the `bridge` and `animal` fields of the returned result equal
the given records (the embedding is pure, so the inputs cannot be
mutated). -/
theorem estimate_crossing_time_frame (bridge : BridgeInfo) (animal : AnimalSpeed)
    (h : 0 < animal.speed_m_s) :
    ∃ r, estimate_crossing_time bridge animal = Except.ok r ∧
      r.bridge = bridge ∧ r.animal = animal := by
  have hns : ¬ animal.speed_m_s ≤ 0 := not_le.mpr h
  have he : estimate_crossing_time bridge animal =
      Except.ok
        { bridge := bridge,
          animal := animal,
          time_seconds := qDiv bridge.length_meters animal.speed_m_s,
          time_human_readable :=
            format_seconds (qDiv bridge.length_meters animal.speed_m_s),
          steps :=
            [{ description := "Получена длина моста",
               data := some [("name", JValue.str bridge.name),
                             ("length_meters", JValue.num bridge.length_meters)] },
             { description := "Получена скорость животного",
               data := some [("name", JValue.str animal.name),
                             ("speed_m_s", JValue.num animal.speed_m_s),
                             ("speed_km_h", jOfOptQ animal.speed_km_h)] },
             { description := "Рассчитано время пересечения",
               data := some [("time_seconds",
                 JValue.num (qDiv bridge.length_meters animal.speed_m_s))] }] } := by
    simp only [estimate_crossing_time, if_neg hns]
  exact ⟨_, he, rfl, rfl⟩

/-- Witness for C10 at the mock input. -/
theorem estimate_crossing_time_frame_witness :
    (0 : ℚ) < 25 ∧
    ∃ r, estimate_crossing_time
        { name := "Mock Bridge", length_meters := 200, source := "mock:b" }
        { name := "Mock Cheetah", speed_m_s := 25, source := "mock:c",
          speed_km_h := none } = Except.ok r ∧
      r.bridge = { name := "Mock Bridge", length_meters := 200, source := "mock:b" } ∧
      r.animal = { name := "Mock Cheetah", speed_m_s := 25, source := "mock:c",
                   speed_km_h := none } :=
  ⟨by decide, estimate_crossing_time_frame _ _ (by decide)⟩

/-- Claim C2: the resolvers never propagate an exception.  Against a
client whose search always throws, `get_bridge_info_big_stone_bridge`
returns the fixed fallback bridge fact (length 487.0, name suffixed
"(fallback)", source "fallback:" followed by the error text) and
`get_animal_speed` returns the fixed fallback animal fact with speed
90/3.6 m/s.  On any error of the `try` body the fallback fact is
returned, and on any success of the `try` body the retrieved fact is
returned unchanged — fallback facts arise only on the error path. -/
theorem resolvers_fallback_spec :
    (∀ (client : WikipediaClient) (e : String),
      (∀ q, client.search_page q = Except.error e) →
      get_bridge_info_big_stone_bridge client =
        { name := "Большой Каменный мост (fallback)", length_meters := 487,
          source := "fallback:" ++ e }) ∧
    (∀ (client en_network : WikipediaClient) (animal_name e : String),
      client.search_page animal_name = Except.error e →
      get_animal_speed client en_network animal_name =
        { name := animal_name ++ " (fallback)", speed_m_s := 90 / (36 / 10 : ℚ),
          source := "fallback:" ++ e, speed_km_h := some 90 }) ∧
    (∀ (client : WikipediaClient) (b : BridgeInfo),
      bridge_try client = Except.ok b →
      get_bridge_info_big_stone_bridge client = b) ∧
    (∀ (client en_network : WikipediaClient) (animal_name : String) (a : AnimalSpeed),
      animal_try client en_network animal_name = Except.ok a →
      get_animal_speed client en_network animal_name = a) ∧
    (∀ (client : WikipediaClient) (e : String),
      bridge_try client = Except.error e →
      get_bridge_info_big_stone_bridge client =
        { name := "Большой Каменный мост (fallback)", length_meters := 487,
          source := "fallback:" ++ e }) ∧
    (∀ (client en_network : WikipediaClient) (animal_name e : String),
      animal_try client en_network animal_name = Except.error e →
      get_animal_speed client en_network animal_name =
        { name := animal_name ++ " (fallback)", speed_m_s := 90 / (36 / 10 : ℚ),
          source := "fallback:" ++ e, speed_km_h := some 90 }) := by
  have hfall : ∀ (client en_network : WikipediaClient) (animal_name e : String),
      animal_try client en_network animal_name = Except.error e →
      get_animal_speed client en_network animal_name =
        { name := animal_name ++ " (fallback)", speed_m_s := 90 / (36 / 10 : ℚ),
          source := "fallback:" ++ e, speed_km_h := some 90 } := by
    intro client en_network animal_name e h
    rw [get_animal_error client en_network animal_name e h,
      AnimalSpeed.from_kmh, kmh_to_ms_eq]
  refine ⟨?_, ?_, get_bridge_ok, get_animal_ok, get_bridge_error, hfall⟩
  · intro client e h
    exact get_bridge_error client e (bridge_try_search_error client e (h _))
  · intro client en_network animal_name e h
    exact hfall client en_network animal_name e
      (animal_try_search_error client en_network animal_name e h)

/-- Witness for C2: the always-throwing client of the tests of the repository itself. -/
theorem resolvers_fallback_spec_witness :
    get_bridge_info_big_stone_bridge failing_client =
      { name := "Большой Каменный мост (fallback)", length_meters := 487,
        source := "fallback:boom" } ∧
    get_animal_speed failing_client failing_client "Гепард" =
      { name := "Гепард (fallback)", speed_m_s := 90 / (36 / 10 : ℚ),
        source := "fallback:boom", speed_km_h := some 90 } :=
  ⟨resolvers_fallback_spec.1 failing_client "boom" (fun _ => rfl),
   resolvers_fallback_spec.2.1 failing_client failing_client "Гепард" "boom" rfl⟩

/-- Counterexample to claim C6 as stated: an environment in which the
primary-language searches both return absent, the primary client is not
pointed at the English encyclopedia, and the secondary English search
succeeds — yet the returned fact does not derive from the result of the secondary
client, because the subsequent summary fetch throws and the
catch-all produces the fallback fact instead. -/
theorem animal_language_fallback_counterexample :
    c6_primary.search_page "cheetah" = Except.ok none ∧
    c6_primary.search_page (pyCapitalize "cheetah") = Except.ok none ∧
    strStartsWith c6_primary.base_url "https://en.wikipedia.org" = false ∧
    c6_en_broken.search_page (pyCapitalize "cheetah") =
      Except.ok (some c6_secondary_hit) ∧
    get_animal_speed c6_primary c6_en_broken "cheetah" =
      { name := "cheetah (fallback)", speed_m_s := 25,
        source := "fallback:summary down", speed_km_h := some 90 } ∧
    (get_animal_speed c6_primary c6_en_broken "cheetah").name ≠
      c6_secondary_hit.title ∧
    (get_animal_speed c6_primary c6_en_broken "cheetah").source ≠
      _build_page_url c6_secondary_hit.page_id en_wikipedia_api_base := by
  decide

/-- Claim C6, amended: when the primary-language search returns absent for
the name and the capitalized name, the primary client is not pointed at
the English encyclopedia, the secondary English search succeeds, and the
subsequent summary fetch and speed parse succeed (directly, or through the
one full-body retry), the name, parsed summary and source of the returned fact
all derive from the result of the secondary client. -/
theorem animal_language_fallback_spec :
    (∀ (client en_network : WikipediaClient) (animal_name : String)
      (sr : WikipediaSearchResult) (summary : WikipediaPageSummary) (v : ℚ),
      client.search_page animal_name = Except.ok none →
      client.search_page (pyCapitalize animal_name) = Except.ok none →
      strStartsWith client.base_url "https://en.wikipedia.org" = false →
      en_network.search_page (pyCapitalize animal_name) = Except.ok (some sr) →
      en_network.get_page_summary sr.page_id true = Except.ok summary →
      _parse_speed_kmh summary.extract = Except.ok v →
      get_animal_speed client en_network animal_name =
        AnimalSpeed.from_kmh sr.title v
          (_build_page_url sr.page_id en_wikipedia_api_base)) ∧
    (∀ (client en_network : WikipediaClient) (animal_name : String)
      (sr : WikipediaSearchResult) (summary summary2 : WikipediaPageSummary)
      (e1 : String) (v : ℚ),
      client.search_page animal_name = Except.ok none →
      client.search_page (pyCapitalize animal_name) = Except.ok none →
      strStartsWith client.base_url "https://en.wikipedia.org" = false →
      en_network.search_page (pyCapitalize animal_name) = Except.ok (some sr) →
      en_network.get_page_summary sr.page_id true = Except.ok summary →
      _parse_speed_kmh summary.extract = Except.error e1 →
      en_network.get_page_summary sr.page_id false = Except.ok summary2 →
      _parse_speed_kmh summary2.extract = Except.ok v →
      get_animal_speed client en_network animal_name =
        AnimalSpeed.from_kmh sr.title v
          (_build_page_url sr.page_id en_wikipedia_api_base)) := by
  constructor
  · intro client en_network animal_name sr summary v h1 h2 h3 h4 h5 h6
    have ht : animal_try client en_network animal_name =
        Except.ok (AnimalSpeed.from_kmh sr.title v
          (_build_page_url sr.page_id en_wikipedia_api_base)) := by
      simp only [animal_try, h1, h2, h3, h4, h5, h6, Bool.false_eq_true,
        if_false]
    exact get_animal_ok _ _ _ _ ht
  · intro client en_network animal_name sr summary summary2 e1 v h1 h2 h3 h4 h5 h6 h7 h8
    have ht : animal_try client en_network animal_name =
        Except.ok (AnimalSpeed.from_kmh sr.title v
          (_build_page_url sr.page_id en_wikipedia_api_base)) := by
      simp only [animal_try, h1, h2, h3, h4, h5, h6, h7, h8,
        Bool.false_eq_true, if_false]
    exact get_animal_ok _ _ _ _ ht

/-- Witness for the amended C6 at a concrete environment whose English
page text carries the speed 108 km/h. -/
theorem animal_language_fallback_spec_witness :
    c6_primary.search_page "cheetah" = Except.ok none ∧
    strStartsWith c6_primary.base_url "https://en.wikipedia.org" = false ∧
    get_animal_speed c6_primary c6_en_ok "cheetah" =
      AnimalSpeed.from_kmh c6_secondary_hit.title 108
        (_build_page_url c6_secondary_hit.page_id en_wikipedia_api_base) :=
  ⟨rfl, by decide,
   animal_language_fallback_spec.1 c6_primary c6_en_ok "cheetah"
     c6_secondary_hit
     { page_id := 100, title := "dummy",
       extract := "Typical speed reaches 108 km/h.", description := none }
     108 rfl rfl (by decide) rfl rfl (by decide)⟩

/-- Counterexample to claim C4 as stated: the unit markers of the length pattern are the Cyrillic "м"/"метр" only, so the example text of the claim itself
with Latin "m" markers yields the no-match error instead of 345.5
(`mkRat 691 2`). -/
theorem parse_length_latin_counterexample :
    _parse_length_meters "Bridge is 345.5 m long, built near a 123 m crossing." =
      Except.error "Не удалось извлечь длину моста из текста" ∧
    _parse_length_meters "Bridge is 345.5 m long, built near a 123 m crossing." ≠
      Except.ok (mkRat 691 2) := by
  decide

/-- Claim C4, amended: `_parse_length_meters` scans for numeric tokens
(decimal separator "," or ".") followed, allowing whitespace, by the
Cyrillic meter marker "м"/"метр" (case-insensitive; Latin "m"/"meter" is
not matched), returns the maximum of all matched values — 345.5
(`mkRat 691 2`) on the Cyrillic version of the example — and fails with
the no-match error when no numeric-unit pair is found, never silently
returning zero or null. -/
theorem parse_length_spec :
    (∀ (text : String) (v : ℚ), _parse_length_meters text = Except.ok v →
      v ∈ parsedLengthValues text ∧ ∀ w ∈ parsedLengthValues text, w ≤ v) ∧
    (∀ text : String, reFindAll unitMeters text.length text.data = [] →
      _parse_length_meters text =
        Except.error "Не удалось извлечь длину моста из текста") ∧
    _parse_length_meters "Мост длиной 345,5 м построен рядом с 123 м переправой." =
      Except.ok (mkRat 691 2) ∧
    _parse_length_meters "В тексте нет данных о длине моста." =
      Except.error "Не удалось извлечь длину моста из текста" := by
  refine ⟨parse_length_ok_max, ?_, by decide, by decide⟩
  intro text he
  simp [_parse_length_meters, he]

/-- Witness for the amended C4: the maximum-of-matches policy at the
Cyrillic example text. -/
theorem parse_length_spec_witness :
    mkRat 691 2 ∈
      parsedLengthValues "Мост длиной 345,5 м построен рядом с 123 м переправой." ∧
    ∀ w ∈ parsedLengthValues "Мост длиной 345,5 м построен рядом с 123 м переправой.",
      w ≤ mkRat 691 2 :=
  parse_length_spec.1 "Мост длиной 345,5 м построен рядом с 123 м переправой."
    (mkRat 691 2) (by decide)

/-- Counterexample to claim C5 as stated: spacing around the slash is
tolerated only in the Cyrillic marker "км/ч"; "100 km / h" (Latin marker
with spaces around the slash) yields the no-match error instead of
100.0. -/
theorem parse_speed_spacing_counterexample :
    _parse_speed_kmh "100 km / h" =
      Except.error "Не удалось извлечь скорость гепарда из текста" ∧
    _parse_speed_kmh "100 km / h" ≠ Except.ok 100 ∧
    _parse_speed_kmh "скорость 100 км / ч" = Except.ok 100 := by
  decide

/-- Claim C5, amended: `_parse_speed_kmh` recognizes numeric tokens
followed by "км/ч" (spacing tolerated around the slash), "км в час",
"km/h" or "kmh" (case-insensitive; the Latin "km/h" must be written
without spaces around the slash), returns the maximum of all matched
values — 100.0 for a text containing both "100 км/ч" and "95 km/h" — and
fails with the no-match error when no such pair is found. -/
theorem parse_speed_spec :
    (∀ (text : String) (v : ℚ), _parse_speed_kmh text = Except.ok v →
      v ∈ parsedSpeedValues text ∧ ∀ w ∈ parsedSpeedValues text, w ≤ v) ∧
    (∀ text : String, reFindAll unitKmh text.length text.data = [] →
      _parse_speed_kmh text =
        Except.error "Не удалось извлечь скорость гепарда из текста") ∧
    _parse_speed_kmh "Гепард развивает скорость до 100 км/ч, а иногда 95 km/h." =
      Except.ok 100 ∧
    _parse_speed_kmh "скорость до 100 КМ В ЧАС" = Except.ok 100 ∧
    _parse_speed_kmh "разгоняется до 110 kmh" = Except.ok 110 ∧
    _parse_speed_kmh "Здесь нет упоминания скорости." =
      Except.error "Не удалось извлечь скорость гепарда из текста" := by
  refine ⟨parse_speed_ok_max, ?_, by decide, by decide, by decide, by decide⟩
  intro text he
  simp [_parse_speed_kmh, he]

/-- Witness for the amended C5: the maximum-of-matches policy at the
two-variant example text. -/
theorem parse_speed_spec_witness :
    (100 : ℚ) ∈
      parsedSpeedValues "Гепард развивает скорость до 100 км/ч, а иногда 95 km/h." ∧
    ∀ w ∈ parsedSpeedValues "Гепард развивает скорость до 100 км/ч, а иногда 95 km/h.",
      w ≤ (100 : ℚ) :=
  parse_speed_spec.1 "Гепард развивает скорость до 100 км/ч, а иногда 95 km/h."
    100 (by decide)

/-- Claim C7: `self_check_result` performs the three independent inclusive
range checks (time in [0.5, 600], length in [20, 1000], speed in
[5, 100]), each producing a step whose status is "ok" exactly when the
value is in range and "fail" otherwise; the overall flag is the
conjunction of the three checks; and the summary step recording the flag
is always appended (before any advisory LLM step).  At time=8, length=200,
speed=25 the flag is true; at time=1000 it is false. -/
theorem self_check_result_spec :
    (∀ (result : ReasoningResult) (llm_step : Option ReasoningStep),
      (self_check_result result llm_step).1 =
        (decide (TIME_RANGE.1 ≤ result.time_seconds ∧
            result.time_seconds ≤ TIME_RANGE.2) &&
         decide (BRIDGE_RANGE.1 ≤ result.bridge.length_meters ∧
            result.bridge.length_meters ≤ BRIDGE_RANGE.2) &&
         decide (SPEED_RANGE.1 ≤ result.animal.speed_m_s ∧
            result.animal.speed_m_s ≤ SPEED_RANGE.2)) ∧
      (self_check_result result llm_step).2 =
        [_check_range result.time_seconds TIME_RANGE.1 TIME_RANGE.2
           "Проверка времени пересечения" "секунды",
         _check_range result.bridge.length_meters BRIDGE_RANGE.1 BRIDGE_RANGE.2
           "Проверка длины моста" "метры",
         _check_range result.animal.speed_m_s SPEED_RANGE.1 SPEED_RANGE.2
           "Проверка скорости гепарда" "м/с",
         { description := "Итог self-check",
           data := some [("ok", JValue.bool (self_check_result result llm_step).1),
                         ("note", JValue.str "При ok=False результат сомнителен. TODO: пересчитать с альтернативными источниками при необходимости.")] }] ++
          llm_step.toList) ∧
    (∀ (v lo hi : ℚ) (d u : String),
      List.lookup "status" (((_check_range v lo hi d u).data).getD []) =
        some (JValue.str (if lo ≤ v ∧ v ≤ hi then "ok" else "fail"))) ∧
    (self_check_result
      { bridge := { name := "B", length_meters := 200, source := "s" },
        animal := { name := "A", speed_m_s := 25, source := "s", speed_km_h := none },
        time_seconds := 8, time_human_readable := "x", steps := [] } none).1 = true ∧
    (self_check_result
      { bridge := { name := "B", length_meters := 200, source := "s" },
        animal := { name := "A", speed_m_s := 25, source := "s", speed_km_h := none },
        time_seconds := 1000, time_human_readable := "x", steps := [] } none).1 = false := by
  refine ⟨?_, fun v lo hi d u => rfl, by decide, by decide⟩
  intro result llm_step
  refine ⟨?_, rfl⟩
  by_cases h1 : TIME_RANGE.1 ≤ result.time_seconds ∧ result.time_seconds ≤ TIME_RANGE.2 <;>
    by_cases h2 : BRIDGE_RANGE.1 ≤ result.bridge.length_meters ∧
      result.bridge.length_meters ≤ BRIDGE_RANGE.2 <;>
    by_cases h3 : SPEED_RANGE.1 ≤ result.animal.speed_m_s ∧
      result.animal.speed_m_s ≤ SPEED_RANGE.2 <;>
    simp [self_check_result, _check_range, h1, h2, h3, List.lookup]

/-- Claim C8: for every nonnegative number of seconds, `format_seconds`
renders one decimal with the seconds label below 60; otherwise, with
`minutes = ⌊s / 60⌋` and `remainder = s - minutes * 60`, just the minutes
label when the remainder is below 0.1, and minutes plus the remainder to
one decimal otherwise — so 45.12 (`mkRat 4512 100`) renders as
"45.1 секунд", 120.0 as "2 минут", and 125.4 (`mkRat 1254 10`) as
"2 минут 5.4 секунд". -/
theorem format_seconds_spec :
    (∀ s : ℚ, 0 ≤ s →
      (s < 60 → format_seconds s = pyFormat1 s ++ " секунд") ∧
      (60 ≤ s → s - (⌊s / 60⌋ : ℚ) * 60 < 1 / 10 →
        format_seconds s = toString ⌊s / 60⌋ ++ " минут") ∧
      (60 ≤ s → 1 / 10 ≤ s - (⌊s / 60⌋ : ℚ) * 60 →
        format_seconds s =
          toString ⌊s / 60⌋ ++ " минут " ++
            pyFormat1 (s - (⌊s / 60⌋ : ℚ) * 60) ++ " секунд")) ∧
    format_seconds (mkRat 4512 100) = "45.1 секунд" ∧
    format_seconds 120 = "2 минут" ∧
    format_seconds (mkRat 1254 10) = "2 минут 5.4 секунд" := by
  refine ⟨?_, by decide, by decide, by decide⟩
  intro s _
  have e1 : (qDiv s 60).floor = ⌊s / 60⌋ := by rw [qDiv_eq, ratFloor_eq]
  have e2 : qSub s (intToQ (⌊s / 60⌋ * 60)) = s - (⌊s / 60⌋ : ℚ) * 60 := by
    rw [qSub_eq, intToQ_eq]
    push_cast
    ring
  refine ⟨?_, ?_, ?_⟩
  · intro hlt
    rw [format_seconds, if_pos hlt]
  · intro hge hrem
    simp only [format_seconds, if_neg (not_lt.mpr hge), e1, e2, mkRat_1_10]
    rw [if_pos hrem]
  · intro hge hrem
    simp only [format_seconds, if_neg (not_lt.mpr hge), e1, e2, mkRat_1_10]
    rw [if_neg (not_lt.mpr hrem)]

/-- Witness for C8 at 45.12 seconds (below-a-minute branch). -/
theorem format_seconds_spec_witness :
    (0 : ℚ) ≤ mkRat 4512 100 ∧ mkRat 4512 100 < 60 ∧
    format_seconds (mkRat 4512 100) = pyFormat1 (mkRat 4512 100) ++ " секунд" :=
  ⟨by decide, by decide,
   (format_seconds_spec.1 (mkRat 4512 100) (by decide)).1 (by decide)⟩

/-- Counterexample to claim C9 as stated: the data model does not enforce
positivity (both fields are plain floats), and a retrieval client serving
a page whose text parses to a zero value makes the resolvers return a
zero-valued fact. -/
theorem resolver_positive_counterexample :
    get_bridge_info_big_stone_bridge zero_length_client =
      { name := "B", length_meters := 0, source := "https://example.com/?curid=1" } ∧
    ¬ 0 < (get_bridge_info_big_stone_bridge zero_length_client).length_meters ∧
    get_animal_speed zero_speed_client failing_client "гепард" =
      { name := "A", speed_m_s := 0, source := "https://example.com/?curid=2",
        speed_km_h := some 0 } ∧
    ¬ 0 < (get_animal_speed zero_speed_client failing_client "гепард").speed_m_s := by
  decide

/-- Claim C9, amended: for every retrieval client behaviour the resolved
`length_meters` and `speed_m_s` are nonnegative (the parsers only match
unsigned decimal tokens), and on the fallback path they are strictly
positive (487 and 90/3.6); strict positivity on the retrieval path is not
enforced — a page parsing to zero yields a zero-valued fact. -/
theorem resolver_values_nonneg :
    (∀ client : WikipediaClient,
      0 ≤ (get_bridge_info_big_stone_bridge client).length_meters) ∧
    (∀ (client en_network : WikipediaClient) (animal_name : String),
      0 ≤ (get_animal_speed client en_network animal_name).speed_m_s) ∧
    0 < (get_bridge_info_big_stone_bridge failing_client).length_meters ∧
    0 < (get_animal_speed failing_client failing_client "Гепард").speed_m_s := by
  refine ⟨?_, ?_, by decide, by decide⟩
  · intro client
    cases hb : bridge_try client with
    | ok b =>
      rw [get_bridge_ok client b hb]
      exact bridge_try_ok_nonneg client b hb
    | error e =>
      rw [get_bridge_error client e hb]
      norm_num
  · intro client en_network animal_name
    cases ha : animal_try client en_network animal_name with
    | ok a =>
      rw [get_animal_ok client en_network animal_name a ha]
      exact animal_try_ok_nonneg client en_network animal_name a ha
    | error e =>
      rw [get_animal_error client en_network animal_name e ha]
      exact kmh_to_ms_nonneg 90 (by norm_num)
